import Mathlib

/-!
Verification of the estimagic POUNDERs wrapper (`tao_optimizers.py`) and the
interactive distribution-plot pipeline (`histogram_columns.py`,
`basic_plot.py`) against their natural-language specification.

The Python code is shallowly embedded: DataFrames become lists of records,
float arithmetic becomes exact rational (`ℚ`) arithmetic, fallible lookups
(dict access that may raise `KeyError`, `pd.cut` values that fall outside all
bins) become `Option`, and raised exceptions become `Except.error` values.
-/

namespace Estimagic

/-! ## `tao_optimizers.py`: data model -/

/-- State of the external TAO solver object after `tao.solve()` as the wrapper
reads it: `tao.solution.array`, `tao.function`, `tao.getIterationNumber()`,
`tao.gnorm`, `tao.cnorm`, `tao.getConvergedReason()`. -/
structure TaoState where
  solution : List ℚ
  function : ℚ
  iterationNumber : ℕ
  gnorm : ℚ
  cnorm : ℚ
  convergedReason : Int
deriving DecidableEq

/-- The results dictionary built by `_process_pounders_results`; keys become
fields.  Fields that the Python code always sets to `None` are `Option`s. -/
structure PoundersResults where
  solution_x : List ℚ
  solution_criterion : ℚ
  solution_derivative : Option (List ℚ)
  solution_hessian : Option (List (List ℚ))
  n_criterion_evaluations : ℕ
  n_derivative_evaluations : Option ℕ
  n_iterations : Option ℕ
  success : Bool
  reached_convergence_criterion : Option String
  message : String
  solution_criterion_values : List ℚ
  gradient_norm : ℚ
  criterion_norm : ℚ
  convergence_code : Int
deriving DecidableEq

/-- `_translate_tao_convergence_reason`: the dict lookup `mapping[tao_resaon]`,
embedded as an if-chain over the dict's twelve keys.  A key that is absent
raises `KeyError` in Python; here the result is `none`. -/
def translate_tao_convergence_reason (tao_resaon : Int) : Option String :=
  if tao_resaon = 3 then some "absolute_gradient_tolerance below critical value"
  else if tao_resaon = 4 then some "relative_gradient_tolerance below critical value"
  else if tao_resaon = 5 then some "scaled_gradient_tolerance below critical value"
  else if tao_resaon = 6 then some "step size small"
  else if tao_resaon = 7 then some "objective below min value"
  else if tao_resaon = 8 then some "user defined"
  else if tao_resaon = -2 then some "maxits reached"
  else if tao_resaon = -4 then some "numerical problems"
  else if tao_resaon = -5 then some "max funcevals reached"
  else if tao_resaon = -6 then some "line search failure"
  else if tao_resaon = -7 then some "trust region failure"
  else if tao_resaon = -8 then some "user defined"
  else none

/-- `_process_pounders_results(residuals_out, tao)`.  Returns `none` when the
translation of the convergence code raises `KeyError`. -/
def process_pounders_results (residuals_out : List ℚ) (tao : TaoState) :
    Option PoundersResults :=
  (translate_tao_convergence_reason tao.convergedReason).map (fun convergence_reason =>
    { solution_x := tao.solution
      solution_criterion := tao.function
      solution_derivative := none
      solution_hessian := none
      n_criterion_evaluations := tao.iterationNumber
      n_derivative_evaluations := none
      n_iterations := none
      success := decide (0 ≤ tao.convergedReason)
      reached_convergence_criterion :=
        if 0 ≤ tao.convergedReason then some convergence_reason else none
      message := convergence_reason
      solution_criterion_values := residuals_out
      gradient_norm := tao.gnorm
      criterion_norm := tao.cnorm
      convergence_code := tao.convergedReason })

/-- Outcome of one call of a user-defined TAO convergence test: `return 0`,
`tao.setConvergedReason(r)`, or the implicit `return None` of a Python
function in which no branch fires. -/
inductive ConvTestOutcome where
  | ret0 : ConvTestOutcome
  | setConvergedReason : Int → ConvTestOutcome
  | fallthrough : ConvTestOutcome
deriving DecidableEq

/-- A Python float as the convergence tests read it from
`tao.getSolutionStatus()`: an ordinary value, carried exactly, or the IEEE
not-a-number. -/
inductive PyFloat where
  | val : ℚ → PyFloat
  | nan : PyFloat
deriving DecidableEq

/-- Python float division: a zero divisor raises `ZeroDivisionError`
(whatever the dividend, NaN included) and NaN otherwise propagates. -/
def pyDiv (a b : PyFloat) : Except String PyFloat :=
  match b with
  | PyFloat.nan => Except.ok PyFloat.nan
  | PyFloat.val q =>
      if q = 0 then Except.error "ZeroDivisionError: float division by zero"
      else
        match a with
        | PyFloat.nan => Except.ok PyFloat.nan
        | PyFloat.val p => Except.ok (PyFloat.val (p / q))

/-- Python `x >= t` against an ordinary tolerance value: false when `x` is
NaN, the usual order otherwise. -/
def pyGe (x : PyFloat) (t : ℚ) : Bool :=
  match x with
  | PyFloat.nan => false
  | PyFloat.val q => decide (t ≤ q)

/-- Python `x < t` against an ordinary tolerance value: false when `x` is
NaN, the usual order otherwise. -/
def pyLt (x : PyFloat) (t : ℚ) : Bool :=
  match x with
  | PyFloat.nan => false
  | PyFloat.val q => decide (q < t)

/-- `_grtol_gatol_conv(relative_gradient_tolerance, absolute_gradient_tolerance, tao)`
over Python float semantics.  `f` is `tao.getSolutionStatus()[1]` and `gnorm`
is `tao.getSolutionStatus()[2]`; the ratio `gnorm / f` raises
`ZeroDivisionError` when `f` is zero, and a comparison involving NaN is
false, so the `elif` chain can fall through to the
`gnorm < absolute_gradient_tolerance` branch. -/
def grtol_gatol_conv (relative_gradient_tolerance absolute_gradient_tolerance : ℚ)
    (f gnorm : PyFloat) : Except String ConvTestOutcome :=
  match pyDiv gnorm f with
  | Except.error e => Except.error e
  | Except.ok ratio =>
      if pyGe ratio relative_gradient_tolerance then Except.ok ConvTestOutcome.ret0
      else if pyLt ratio relative_gradient_tolerance then
        Except.ok (ConvTestOutcome.setConvergedReason 4)
      else if pyLt gnorm absolute_gradient_tolerance then
        Except.ok (ConvTestOutcome.setConvergedReason 3)
      else Except.ok ConvTestOutcome.fallthrough

/-! ## `tao_pounders`: control flow and effects on the external toolkit -/

/-- One observable interaction of `tao_pounders` with the petsc4py toolkit or
with the user's criterion function. -/
inductive TaoEffect where
  | vecCreate : ℕ → TaoEffect
  | taoCreate : TaoEffect
  | setType : String → TaoEffect
  | setFromOptions : TaoEffect
  | setResidual : TaoEffect
  | setInitialTrustRegionRadius : ℚ → TaoEffect
  | setVariableBounds : TaoEffect
  | setInitial : TaoEffect
  | setTolerances : ℚ → ℚ → ℚ → TaoEffect
  | setConvergenceTest : String → TaoEffect
  | solveCall : TaoEffect
  | destroy : TaoEffect
deriving DecidableEq

/-- Python truthiness of a tolerance argument: `False` (here `none`) and the
float `0.0` are falsy, every other float is truthy. -/
def pyTruthy (t : Option ℚ) : Bool :=
  match t with
  | none => false
  | some q => decide (q ≠ 0)

/-- `tao_pounders`.  The external solver is opaque, so the call takes the
post-`solve` state and residual array as oracle arguments (`solve_result`,
`solved_residuals`) and `default_radius` stands for
`calculate_trustregion_initial_radius(x)`.  The returned list records, in
order, every effect on the toolkit; exceptions become `Except.error`. -/
def tao_pounders (is_petsc4py_installed : Bool) (x lower_bounds upper_bounds : List ℚ)
    (n_errors : ℕ)
    (convergence_absolute_gradient_tolerance : Option ℚ)
    (convergence_relative_gradient_tolerance : Option ℚ)
    (convergence_scaled_gradient_tolerance : Option ℚ)
    (trustregion_initial_radius : Option ℚ) (default_radius : ℚ)
    (stopping_max_iterations : Option ℕ)
    (solve_result : TaoState) (solved_residuals : List ℚ) :
    List TaoEffect × Except String PoundersResults :=
  if is_petsc4py_installed = false then
    ([], Except.error "NotImplementedError: The petsc4py package is not installed and required for tao_pounders.")
  else
    let effects0 : List TaoEffect :=
      [TaoEffect.vecCreate x.length, TaoEffect.vecCreate n_errors, TaoEffect.taoCreate,
       TaoEffect.setType "pounders", TaoEffect.setFromOptions, TaoEffect.setResidual]
    let rest : ℚ → List TaoEffect × Except String PoundersResults := fun radius =>
      let default_gatol : ℚ :=
        if pyTruthy convergence_absolute_gradient_tolerance then
          convergence_absolute_gradient_tolerance.getD 0
        else -1
      let default_gttol : ℚ :=
        if pyTruthy convergence_scaled_gradient_tolerance then
          convergence_scaled_gradient_tolerance.getD 0
        else -1
      let default_grtol : ℚ :=
        if pyTruthy convergence_relative_gradient_tolerance then
          convergence_relative_gradient_tolerance.getD 0
        else -1
      let convergence_test : Option String :=
        if stopping_max_iterations.isSome then some "max_iters"
        else if convergence_scaled_gradient_tolerance.isNone
            ∧ convergence_absolute_gradient_tolerance.isNone then some "grtol_conv"
        else if convergence_relative_gradient_tolerance.isNone
            ∧ convergence_scaled_gradient_tolerance.isNone then some "gatol_conv"
        else if convergence_scaled_gradient_tolerance.isNone then some "grtol_gatol_conv"
        else none
      let effects1 : List TaoEffect :=
        effects0 ++ [TaoEffect.setInitialTrustRegionRadius radius,
          TaoEffect.vecCreate lower_bounds.length, TaoEffect.vecCreate upper_bounds.length,
          TaoEffect.setVariableBounds, TaoEffect.setInitial,
          TaoEffect.setTolerances default_gatol default_grtol default_gttol]
      let effects2 : List TaoEffect :=
        effects1 ++ (match convergence_test with
          | some t => [TaoEffect.setConvergenceTest t]
          | none => []) ++ [TaoEffect.solveCall]
      match process_pounders_results solved_residuals solve_result with
      | some results => (effects2 ++ List.replicate 5 TaoEffect.destroy, Except.ok results)
      | none => (effects2, Except.error "KeyError: unknown convergence reason")
    match trustregion_initial_radius with
    | some r =>
        if r ≤ 0 then
          (effects0, Except.error "ValueError: The initial trust region radius must be greater than 0.")
        else rest r
    | none => rest default_radius

/-! ## `histogram_columns.py`: data model and helpers -/

/-- Column-wise minimum, as `df[value_col].min()` on a non-empty column
(the `[]` case is never reached from a non-empty group). -/
def colMin : List ℚ → ℚ
  | [] => 0
  | [a] => a
  | a :: b :: l => min a (colMin (b :: l))

/-- Column-wise maximum, as `df[value_col].max()`. -/
def colMax : List ℚ → ℚ
  | [] => 0
  | [a] => a
  | a :: b :: l => max a (colMax (b :: l))

/-- `_calculate_x_bounds(df, value_col, padding)`: the value column is passed
as the list `values`; `.clip(1e-50)` is the lower clip `max · (1e-50)`. -/
def calculate_x_bounds (values : List ℚ) (padding : ℚ) : ℚ × ℚ :=
  let raw_min := colMin values
  let raw_max := colMax values
  let white_space := max (raw_max - raw_min) ((1 : ℚ) / 10 ^ 50) * padding
  (raw_min - white_space, raw_max + white_space)

/-- One row of the tidy input DataFrame.  `groups` holds the cells of the
`group_cols` columns in order, `subgroup` the cell of the `subgroup_col`
column (meaningful only when a subgroup column is designated), `value` the
cell of `value_col`, `id` the cell of `id_col`; `extra` stands for the values
of all remaining columns of the row.  A `none` cell is a missing value
(`NaN`). -/
structure Row where
  groups : List (Option Int)
  subgroup : Option Int
  value : Option ℚ
  id : Option Int
  extra : Int
deriving DecidableEq

/-- One row of the DataFrame returned by `add_histogram_columns_to_tidy_df`:
the retained original columns plus the new columns `binned_x`, `rect_width`,
`dodge` and `color`.  The subgroup column is overwritten by
`_clean_subgroup_col`, whose casts change the cells from their original
(integer) type to strings; `Sum.inl` marks an untouched original cell and
`Sum.inr` a cleaned one. -/
structure HRow where
  groups : List (Option Int)
  subgroup : Option (Int ⊕ String)
  value : Option ℚ
  id : Option Int
  extra : Int
  binned_x : Option ℚ
  rect_width : ℚ
  dodge : Option ℚ
  color : String
deriving DecidableEq

/-- Lexicographic comparison of two sort keys, as `DataFrame.sort_values` on
a list of columns orders two rows (ascending, compared column by column), and
as Python orders tuples. -/
def lexLe {α : Type} [LinearOrder α] : List α → List α → Bool
  | [], _ => true
  | _ :: _, [] => false
  | a :: l, b :: m => if a < b then true else if b < a then false else lexLe l m

/-- `df.dropna(subset=drop_and_sort_cols, how="any")`: a row is kept when
none of the group cells, the subgroup cell (if a subgroup column is given),
the value cell and the id cell is missing. -/
def keep_row (subgroup_col : Bool) (r : Row) : Bool :=
  r.groups.all Option.isSome && (!subgroup_col || r.subgroup.isSome) &&
    r.value.isSome && r.id.isSome

/-- The sort key of a row for
`sort_values(group_cols + ([subgroup_col] if given) + [value_col, id_col])`;
the discrete cells are compared through their numeric values. -/
def drop_and_sort_key (subgroup_col : Bool) (r : Row) : List ℚ :=
  r.groups.map (fun g => ((g.getD 0 : Int) : ℚ)) ++
    (if subgroup_col then [((r.subgroup.getD 0 : Int) : ℚ)] else []) ++
    [r.value.getD 0, ((r.id.getD 0 : Int) : ℚ)]

/-- The `hist_data` frame right after `dropna` and `sort_values` (the
`reset_index` step only renames the index, which the list model does not
carry). -/
def hist_data_of (subgroup_col : Bool) (df : List Row) : List Row :=
  List.insertionSort
    (fun r s => lexLe (drop_and_sort_key subgroup_col r) (drop_and_sort_key subgroup_col s) = true)
    (df.filter (keep_row subgroup_col))

/-- A row's entry in the value column, after `dropna` guaranteed it present. -/
def rowVal (r : Row) : ℚ := r.value.getD 0

/-- `pd.cut(values, bins, labels=midpoints)` for one value: the bins produced
by `np.linspace(x_min, x_max, num_bins + 1)` are the right-closed intervals
`(x_min + i*w, x_min + (i+1)*w]`; a value inside bin `i` is labelled with the
midpoint `x_min + i*w + w/2`, and a value outside every bin becomes `NaN`
(`none`). -/
def cut_midpoint (x_min rect_width : ℚ) (num_bins : ℕ) (v : ℚ) : Option ℚ :=
  ((List.range num_bins).find? (fun i : ℕ =>
      decide (x_min + (i : ℚ) * rect_width < v ∧ v ≤ x_min + ((i : ℚ) + 1) * rect_width))).map
    (fun i : ℕ => x_min + (i : ℚ) * rect_width + rect_width / 2)

/-- `_bin_width_and_midpoints_per_group(df, value_col, num_bins, x_padding)`,
viewed per row: `grp` is the group's rows, and the result is the row's
`(binned_x, rect_width)` pair.  `rect_width` is the `retstep` of
`np.linspace(x_min, x_max, num_bins + 1)`, i.e. `(x_max - x_min)/num_bins`. -/
def bin_width_and_midpoints_per_group (grp : List Row) (num_bins : ℕ) (x_padding : ℚ)
    (r : Row) : Option ℚ × ℚ :=
  let bounds := calculate_x_bounds (grp.map rowVal) x_padding
  let rect_width := (bounds.2 - bounds.1) / (num_bins : ℚ)
  (cut_midpoint bounds.1 rect_width num_bins (rowVal r), rect_width)

/-- `_bin_width_and_midpoints(df, group_cols, value_col, num_bins, x_padding)`,
viewed per row: with more than one group column the bins of a row come from
its `df.groupby(group_cols[:-1])` group (all rows agreeing with it on every
group column but the last); with zero or one group column from the whole
frame. -/
def bin_width_and_midpoints (group_cols_len : ℕ) (hist_data : List Row) (num_bins : ℕ)
    (x_padding : ℚ) (r : Row) : Option ℚ × ℚ :=
  if 1 < group_cols_len then
    bin_width_and_midpoints_per_group
      (hist_data.filter (fun s => decide (s.groups.dropLast = r.groups.dropLast)))
      num_bins x_padding r
  else
    bin_width_and_midpoints_per_group hist_data num_bins x_padding r

/-- Helper for `Series.unique()`: the elements not yet `seen`, first
occurrences first. -/
def uniqAux {α : Type} [DecidableEq α] (seen : List α) : List α → List α
  | [] => []
  | a :: l => if a ∈ seen then uniqAux seen l else a :: uniqAux (a :: seen) l

/-- `Series.unique()`: the distinct values in order of first appearance. -/
def uniqueValues {α : Type} [DecidableEq α] (l : List α) : List α := uniqAux [] l

/-- The repr of a Python float that holds an integer value, as produced by
`astype(float)` on an integer cell. -/
def intFloatRepr (v : Int) : String := toString v ++ ".0"

/-- `_clean_subgroup_col(sr)` for one cell of the integer-valued subgroup
column `sr`: with fewer than 10 distinct values the column is cast with
`astype(str)`; otherwise `astype(float)` is tried, which on integer cells
always succeeds (the `ValueError` fallback to `astype(str)` is unreachable
for them). -/
def clean_subgroup_val (sr : List Int) (v : Int) : String :=
  if (uniqueValues sr).length < 10 then toString v else intFloatRepr v

/-- `_clean_subgroup_col(sr)`: the whole column, cleaned cell by cell. -/
def clean_subgroup_col (sr : List Int) : List String :=
  sr.map (clean_subgroup_val sr)

/-- Modelled from the spec: `get_color_palette` (imported from
`estimagic.dashboard.plotting_functions`, whose source is not part of this
repository) returns a palette of exactly `number` colors. -/
def get_color_palette (number : ℕ) : List String :=
  (List.range number).map (fun i => "palette-color-" ++ toString i)

/-- `_create_color_col(sr)` for one cell: `color_dict` pairs the distinct
subgroup values, in order of first appearance, with a palette of exactly that
many colors, and `sr.replace(color_dict)` maps each cell through the dict
(leaving it unchanged were it absent — it never is). -/
def create_color_val (sr : List String) (v : String) : String :=
  let subgroup_vals := uniqueValues sr
  let palette := get_color_palette subgroup_vals.length
  ((((subgroup_vals.zip palette)).find? (fun p => decide (p.1 = v))).map Prod.snd).getD v

/-- `_create_color_col(sr)`: the whole color column. -/
def create_color_col (sr : List String) : List String :=
  sr.map (create_color_val sr)

/-- The subgroup column of a frame (read after `dropna`, so `getD` never
sees `none` when a subgroup column is designated). -/
def subgroup_col_values (hist_data : List Row) : List Int :=
  hist_data.map (fun r => r.subgroup.getD 0)

/-- One output row: the original cells, the row's `(binned_x, rect_width)`
from `binF`, the overwritten subgroup cell from `subF`, the color cell from
`colorF`, and the dodge cell
`0.5 + hist_data.groupby(group_cols + ["binned_x"]).cumcount()`: 0.5 plus
the number of prior rows of the frame with the same group cells and the same
`binned_x` (rows whose `binned_x` is `NaN` are dropped by `groupby` and keep
a missing dodge). -/
def mkHistRow (binF : Row → Option ℚ × ℚ) (subF : Row → Option (Int ⊕ String))
    (colorF : Row → String) (prior : List Row) (r : Row) : HRow :=
  { groups := r.groups
    subgroup := subF r
    value := r.value
    id := r.id
    extra := r.extra
    binned_x := (binF r).1
    rect_width := (binF r).2
    dodge :=
      match (binF r).1 with
      | none => none
      | some _ => some ((1 : ℚ) / 2 +
          (((prior.filter (fun s =>
              decide (s.groups = r.groups ∧ (binF s).1 = (binF r).1))).length : ℕ) : ℚ))
    color := colorF r }

/-- Assembles the output frame row by row; `prior` carries the rows already
processed so that the dodge cumcount can see them. -/
def build_hist_rows (binF : Row → Option ℚ × ℚ) (subF : Row → Option (Int ⊕ String))
    (colorF : Row → String) : List Row → List Row → List HRow
  | _, [] => []
  | prior, r :: rest =>
      mkHistRow binF subF colorF prior r ::
        build_hist_rows binF subF colorF (prior ++ [r]) rest

/-- `add_histogram_columns_to_tidy_df(df, group_cols, subgroup_col, value_col,
id_col, num_bins, x_padding)`.  `subgroup_col : Bool` records whether a
subgroup column is designated and `group_cols_len` is `len(group_cols)`. -/
def add_histogram_columns_to_tidy_df (subgroup_col : Bool) (group_cols_len num_bins : ℕ)
    (x_padding : ℚ) (df : List Row) : List HRow :=
  let hist_data := hist_data_of subgroup_col df
  let binF := bin_width_and_midpoints group_cols_len hist_data num_bins x_padding
  let subF : Row → Option (Int ⊕ String) := fun r =>
    if subgroup_col then
      some (Sum.inr (clean_subgroup_val (subgroup_col_values hist_data) (r.subgroup.getD 0)))
    else r.subgroup.map Sum.inl
  let colorF : Row → String := fun r =>
    if subgroup_col then
      create_color_val (clean_subgroup_col (subgroup_col_values hist_data))
        (clean_subgroup_val (subgroup_col_values hist_data) (r.subgroup.getD 0))
    else "#035096"
  build_hist_rows binF subF colorF [] hist_data

/-- The cleaned subgroup column of the retained, sorted frame — the series
from which `_create_color_col` builds its color dictionary. -/
def cleaned_subgroup_column (subgroup_col : Bool) (df : List Row) : List String :=
  clean_subgroup_col (subgroup_col_values (hist_data_of subgroup_col df))

/-- Specification-side helper for the bin-grid claim: the rows of the output
frame that agree with `h` on every group column except the last when more
than one group column is given, the whole frame otherwise. -/
def outer_group_rows (group_cols_len : ℕ) (out : List HRow) (h : HRow) : List HRow :=
  if 1 < group_cols_len then
    out.filter (fun h2 => decide (h2.groups.dropLast = h.groups.dropLast))
  else out

/-- Specification-side helper: the value column of a list of output rows. -/
def out_values (rows : List HRow) : List ℚ := rows.map (fun h2 => h2.value.getD 0)

/-- Specification-side statement of the bin-grid claim for one output row `h`
whose bin grid was computed over the value column `vals`: `num_bins` equally
spaced bins span `[min − p·r, max + p·r]` where `r = max (max − min) 1e-50`
and `p` is the padding; the row's `rect_width` is the common bin width
`(x_max − x_min) / num_bins` and its `binned_x` is the midpoint of the bin
whose interval contains the row's value. -/
def bin_grid_spec (num_bins : ℕ) (x_padding : ℚ) (vals : List ℚ) (h : HRow) : Prop :=
  ∃ m M ws w : ℚ,
    m = colMin vals ∧ M = colMax vals ∧
    ws = max (M - m) ((1 : ℚ) / 10 ^ 50) * x_padding ∧
    w = ((M + ws) - (m - ws)) / (num_bins : ℚ) ∧
    h.rect_width = w ∧
    ∃ i : ℕ, i < num_bins ∧
      (m - ws) + (i : ℚ) * w < h.value.getD 0 ∧
      h.value.getD 0 ≤ (m - ws) + ((i : ℚ) + 1) * w ∧
      h.binned_x = some ((m - ws) + (i : ℚ) * w + w / 2)

/-- Concrete two-row frame exercising the bin-grid theorem: two rows of one
outer group `[some 0]` spread over two plots. -/
def bin_grid_example_df : List Row :=
  [{ groups := [some 0, some 1], subgroup := none, value := some 3, id := some 10, extra := 0 },
   { groups := [some 0, some 2], subgroup := none, value := some 7, id := some 11, extra := 0 }]

/-- The first output row of the bin-grid example frame. -/
def bin_grid_example_row : HRow :=
  (add_histogram_columns_to_tidy_df false 2 2 (1 / 10) bin_grid_example_df).getD 0
    { groups := [], subgroup := none, value := none, id := none, extra := 0,
      binned_x := none, rect_width := 0, dodge := none, color := "" }

/-- Concrete frame exercising the color-assignment theorem: two rows sharing
the subgroup value 5. -/
def color_example_df : List Row :=
  [{ groups := [some 1], subgroup := some 5, value := some 3, id := some 10, extra := 0 },
   { groups := [some 1], subgroup := some 5, value := some 4, id := some 11, extra := 0 }]

/-- The first output row of the color example frame. -/
def color_example_row_a : HRow :=
  (add_histogram_columns_to_tidy_df true 1 2 (1 / 10) color_example_df).getD 0
    { groups := [], subgroup := none, value := none, id := none, extra := 0,
      binned_x := none, rect_width := 0, dodge := none, color := "" }

/-- The second output row of the color example frame. -/
def color_example_row_b : HRow :=
  (add_histogram_columns_to_tidy_df true 1 2 (1 / 10) color_example_df).getD 1
    { groups := [], subgroup := none, value := none, id := none, extra := 0,
      binned_x := none, rect_width := 0, dodge := none, color := "" }

/-! ## `basic_plot.py`: the plot-assembly skeleton of `_create_plots` -/

/-- One element of the `plots` list that `_create_plots` assembles: the group
widgets placed in front, a title figure produced by `title_fig(group_type,
group_name, level)`, or the styled parameter plot of one group. -/
inductive PlotItem where
  | widget : PlotItem
  | titleFig (group_type : String) (group_name : String) (level : ℕ) : PlotItem
  | paramPlot (key : List Int) : PlotItem
deriving DecidableEq

/-- `_write_titles(plots, group_cols, old_group_tup, group_tup)`: for every
level except the last, append a title figure when the old and new names at
that level differ.  `old_group_tup = none` is the initial all-`NaN` tuple,
whose components compare unequal to everything. -/
def write_titles (plots : List PlotItem) (group_cols : List String)
    (old_group_tup : Option (List Int)) (group_tup : List Int) : List PlotItem :=
  plots ++ (List.range (group_cols.length - 1)).filterMap (fun level =>
    if (match old_group_tup with
        | none => true
        | some o => decide (o.getD level 0 ≠ group_tup.getD level 0)) then
      some (PlotItem.titleFig (group_cols.getD level "")
        (toString (group_tup.getD level 0)) level)
    else none)

/-- `_check_and_handle_group_switch(group_cols, old_group_tup, group_tup,
plots)`: with fewer than two group columns nothing happens; otherwise a new
group starts when the key differs from the previous key in the components
other than the last (`old_group_tup[:-1] != group_tup[:-1]`), and then the
titles are written and the previous key updated. -/
def check_and_handle_group_switch (group_cols : List String)
    (old_group_tup : Option (List Int)) (group_tup : List Int) (plots : List PlotItem) :
    List PlotItem × Bool × Option (List Int) :=
  if group_cols.length < 2 then (plots, false, old_group_tup)
  else
    let new_group : Bool := match old_group_tup with
      | none => true
      | some o => decide (o.dropLast ≠ group_tup.dropLast)
    if new_group then
      (write_titles plots group_cols old_group_tup group_tup, new_group, some group_tup)
    else (plots, new_group, old_group_tup)

/-- The `for group_tup, group_df in gb:` loop of `_create_plots`, tracking
only the assembled `plots` list: each iteration handles a possible group
switch and then appends the group's parameter plot. -/
def create_plots_loop (group_cols : List String) :
    List PlotItem → Option (List Int) → List (List Int) → List PlotItem
  | plots, _, [] => plots
  | plots, old_group_tup, group_tup :: rest =>
      let step := check_and_handle_group_switch group_cols old_group_tup group_tup plots
      create_plots_loop group_cols (step.1 ++ [PlotItem.paramPlot group_tup]) step.2.2 rest

/-- The keys over which `df.groupby(group_cols)` iterates: the distinct group
keys of the frame's rows, in sorted order. -/
def groupby_keys (keys : List (List Int)) : List (List Int) :=
  List.insertionSort (fun a b => lexLe a b = true) (uniqueValues keys)

/-- `_create_plots`, reduced to the `plots` list it assembles; `keys` lists
the group-key tuple of each row of the frame.  With no group column the loop
body runs once (`gb = [(None, df)]`, modelled by the single empty key); with
one group column it runs per group; a fixed heading title figure is placed
after the widgets in both cases. -/
def create_plots (group_cols : List String) (keys : List (List Int)) : List PlotItem :=
  if group_cols.length = 0 then
    create_plots_loop group_cols
      [PlotItem.widget, PlotItem.titleFig "All Parameters" "" 0] none [[]]
  else if group_cols.length = 1 then
    create_plots_loop group_cols
      [PlotItem.widget, PlotItem.titleFig (group_cols.getD 0 "") "" 0] none (groupby_keys keys)
  else
    create_plots_loop group_cols [PlotItem.widget] none (groupby_keys keys)

/-- Specification-side description of the title figures one group switch
inserts: none with fewer than two group columns; for the first group one
title per level other than the last; afterwards, exactly when the key differs
from the previous key in some component other than the last, one title for
each level other than the last whose component changed. -/
def group_switch_titles_spec (group_cols : List String) :
    Option (List Int) → List Int → List PlotItem
  | none, group_tup =>
      if group_cols.length < 2 then []
      else
        (List.range (group_cols.length - 1)).map (fun level =>
          PlotItem.titleFig (group_cols.getD level "")
            (toString (group_tup.getD level 0)) level)
  | some o, group_tup =>
      if group_cols.length < 2 then []
      else if o.dropLast = group_tup.dropLast then []
      else
        (List.range (group_cols.length - 1)).filterMap (fun level =>
          if decide (o.getD level 0 ≠ group_tup.getD level 0) then
            some (PlotItem.titleFig (group_cols.getD level "")
              (toString (group_tup.getD level 0)) level)
          else none)

/-- Specification-side description of the whole loop output: per group, the
group-switch titles followed by the group's parameter plot, the previous key
updating exactly when a switch happened. -/
def create_plots_spec (group_cols : List String) :
    Option (List Int) → List (List Int) → List PlotItem
  | _, [] => []
  | old_group_tup, group_tup :: rest =>
      group_switch_titles_spec group_cols old_group_tup group_tup ++
        [PlotItem.paramPlot group_tup] ++
        create_plots_spec group_cols
          (if group_cols.length < 2 then old_group_tup
           else if (match old_group_tup with
              | none => true
              | some o => decide (o.dropLast ≠ group_tup.dropLast)) then some group_tup
           else old_group_tup) rest

end Estimagic

namespace Estimagic

/-! ## Theorems about the optimizer wrapper -/

/-- C3: `_translate_tao_convergence_reason` maps each of the twelve documented
convergence codes to its fixed string and raises `KeyError` (here: `none`)
for every other integer code. -/
theorem translate_tao_convergence_reason_correct :
    translate_tao_convergence_reason 3 = some "absolute_gradient_tolerance below critical value" ∧
    translate_tao_convergence_reason 4 = some "relative_gradient_tolerance below critical value" ∧
    translate_tao_convergence_reason 5 = some "scaled_gradient_tolerance below critical value" ∧
    translate_tao_convergence_reason 6 = some "step size small" ∧
    translate_tao_convergence_reason 7 = some "objective below min value" ∧
    translate_tao_convergence_reason 8 = some "user defined" ∧
    translate_tao_convergence_reason (-2) = some "maxits reached" ∧
    translate_tao_convergence_reason (-4) = some "numerical problems" ∧
    translate_tao_convergence_reason (-5) = some "max funcevals reached" ∧
    translate_tao_convergence_reason (-6) = some "line search failure" ∧
    translate_tao_convergence_reason (-7) = some "trust region failure" ∧
    translate_tao_convergence_reason (-8) = some "user defined" ∧
    ∀ c : Int, c ∉ ([3, 4, 5, 6, 7, 8, -2, -4, -5, -6, -7, -8] : List Int) →
      translate_tao_convergence_reason c = none := by
  refine ⟨rfl, rfl, rfl, rfl, rfl, rfl, rfl, rfl, rfl, rfl, rfl, rfl, ?_⟩
  intro c hc
  simp only [List.mem_cons, List.not_mem_nil, or_false, not_or] at hc
  obtain ⟨h3, h4, h5, h6, h7, h8, hm2, hm4, hm5, hm6, hm7, hm8⟩ := hc
  simp [translate_tao_convergence_reason, h3, h4, h5, h6, h7, h8, hm2, hm4, hm5, hm6, hm7, hm8]

/-- C4: for every terminated solve whose convergence code the translation
table covers, `_process_pounders_results` sets `success` to `True` iff the
code is `>= 0`, sets `reached_convergence_criterion` to the translated reason
when the code is `>= 0` and to `None` when it is negative, always sets
`message` to the translated reason, and copies the raw code into
`convergence_code`. -/
theorem process_pounders_results_correct (residuals_out : List ℚ) (tao : TaoState)
    (reason : String)
    (h : translate_tao_convergence_reason tao.convergedReason = some reason) :
    ∃ res, process_pounders_results residuals_out tao = some res ∧
      (res.success = true ↔ 0 ≤ tao.convergedReason) ∧
      (0 ≤ tao.convergedReason → res.reached_convergence_criterion = some reason) ∧
      (tao.convergedReason < 0 → res.reached_convergence_criterion = none) ∧
      res.message = reason ∧
      res.convergence_code = tao.convergedReason := by
  refine ⟨_, by rw [process_pounders_results, h]; rfl, ?_, ?_, ?_, rfl, rfl⟩
  · simp
  · intro hge; simp [hge]
  · intro hlt; simp [not_le.mpr hlt]

/-- Closed witness for C4 at two concrete solver states, one with the
positive code `3` and one with the negative code `-2`. -/
theorem process_pounders_results_correct_witness :
    (∃ res, process_pounders_results [] ⟨[1], 2, 5, 0, 0, 3⟩ = some res ∧
      (res.success = true ↔ 0 ≤ (⟨[1], 2, 5, 0, 0, 3⟩ : TaoState).convergedReason) ∧
      (0 ≤ (⟨[1], 2, 5, 0, 0, 3⟩ : TaoState).convergedReason →
        res.reached_convergence_criterion = some "absolute_gradient_tolerance below critical value") ∧
      ((⟨[1], 2, 5, 0, 0, 3⟩ : TaoState).convergedReason < 0 →
        res.reached_convergence_criterion = none) ∧
      res.message = "absolute_gradient_tolerance below critical value" ∧
      res.convergence_code = (⟨[1], 2, 5, 0, 0, 3⟩ : TaoState).convergedReason) ∧
    (∃ res, process_pounders_results [] ⟨[1], 2, 5, 0, 0, -2⟩ = some res ∧
      (res.success = true ↔ 0 ≤ (⟨[1], 2, 5, 0, 0, -2⟩ : TaoState).convergedReason) ∧
      (0 ≤ (⟨[1], 2, 5, 0, 0, -2⟩ : TaoState).convergedReason →
        res.reached_convergence_criterion = some "maxits reached") ∧
      ((⟨[1], 2, 5, 0, 0, -2⟩ : TaoState).convergedReason < 0 →
        res.reached_convergence_criterion = none) ∧
      res.message = "maxits reached" ∧
      res.convergence_code = (⟨[1], 2, 5, 0, 0, -2⟩ : TaoState).convergedReason) :=
  ⟨process_pounders_results_correct [] ⟨[1], 2, 5, 0, 0, 3⟩
      "absolute_gradient_tolerance below critical value" (by decide),
   process_pounders_results_correct [] ⟨[1], 2, 5, 0, 0, -2⟩
      "maxits reached" (by decide)⟩

/-- C8: whenever petsc4py is not installed, `tao_pounders` raises
`NotImplementedError` having performed no effect at all on the toolkit: the
effect trace is empty, so in particular the criterion was never evaluated and
no solver object was created. -/
theorem tao_pounders_not_installed (x lower_bounds upper_bounds : List ℚ)
    (n_errors : ℕ) (gatol grtol gttol : Option ℚ)
    (trustregion_initial_radius : Option ℚ) (default_radius : ℚ)
    (stopping_max_iterations : Option ℕ)
    (solve_result : TaoState) (solved_residuals : List ℚ) :
    tao_pounders false x lower_bounds upper_bounds n_errors gatol grtol gttol
        trustregion_initial_radius default_radius stopping_max_iterations
        solve_result solved_residuals =
      ([], Except.error "NotImplementedError: The petsc4py package is not installed and required for tao_pounders.") := by
  rfl

/-- C10 as stated fails: with a NaN criterion value (`f = NaN`, as a
criterion returning NaN produces) the ratio is NaN, both comparisons on it
are false, and the `elif gnorm < absolute_gradient_tolerance` branch runs —
`_grtol_gatol_conv` does set converged reason 3. -/
theorem grtol_gatol_conv_reason3_counterexample :
    grtol_gatol_conv 1 1 PyFloat.nan (PyFloat.val 0) =
      Except.ok (ConvTestOutcome.setConvergedReason 3) := by
  have h01 : (0 : ℚ) < 1 := by norm_num
  simp [grtol_gatol_conv, pyDiv, pyGe, pyLt, h01]

/-- C10 (amended): whenever the solution status holds ordinary float values
and the criterion value is nonzero — so the ratio is defined and not NaN,
and the first two conditions on it are exhaustive — `_grtol_gatol_conv`
either returns 0 or sets converged reason 4, and the reason-3 branch never
runs; a zero criterion value instead raises `ZeroDivisionError` before any
branch is taken.  With NaN status values the reason-3 branch is reachable
(see the counterexample). -/
theorem grtol_gatol_conv_reason3_unreachable_for_ordinary_floats
    (relative_gradient_tolerance absolute_gradient_tolerance : ℚ) (fq gq : ℚ)
    (hf : fq ≠ 0) :
    grtol_gatol_conv relative_gradient_tolerance absolute_gradient_tolerance
        (PyFloat.val fq) (PyFloat.val gq) ≠
      Except.ok (ConvTestOutcome.setConvergedReason 3) ∧
    (grtol_gatol_conv relative_gradient_tolerance absolute_gradient_tolerance
        (PyFloat.val fq) (PyFloat.val gq) = Except.ok ConvTestOutcome.ret0 ∨
      grtol_gatol_conv relative_gradient_tolerance absolute_gradient_tolerance
        (PyFloat.val fq) (PyFloat.val gq) =
        Except.ok (ConvTestOutcome.setConvergedReason 4)) ∧
    (∀ g : PyFloat, grtol_gatol_conv relative_gradient_tolerance
        absolute_gradient_tolerance (PyFloat.val 0) g =
      Except.error "ZeroDivisionError: float division by zero") := by
  have hdiv : pyDiv (PyFloat.val gq) (PyFloat.val fq) =
      Except.ok (PyFloat.val (gq / fq)) := by
    simp [pyDiv, hf]
  have hzero : ∀ g : PyFloat, grtol_gatol_conv relative_gradient_tolerance
      absolute_gradient_tolerance (PyFloat.val 0) g =
      Except.error "ZeroDivisionError: float division by zero" := by
    intro g
    have hdiv0 : pyDiv g (PyFloat.val 0) =
        Except.error "ZeroDivisionError: float division by zero" := by
      simp [pyDiv]
    rw [grtol_gatol_conv, hdiv0]
  rcases le_or_lt relative_gradient_tolerance (gq / fq) with hge | hlt
  · refine ⟨?_, Or.inl ?_, hzero⟩ <;>
      simp [grtol_gatol_conv, hdiv, pyGe, pyLt, hge]
  · have hnge : ¬ relative_gradient_tolerance ≤ gq / fq := not_le.mpr hlt
    refine ⟨?_, Or.inr ?_, hzero⟩ <;>
      simp [grtol_gatol_conv, hdiv, pyGe, pyLt, hlt, hnge]

/-- Closed witness for the amended C10 at a concrete ordinary-float status. -/
theorem grtol_gatol_conv_ordinary_witness :
    grtol_gatol_conv 1 1 (PyFloat.val 1) (PyFloat.val 0) ≠
      Except.ok (ConvTestOutcome.setConvergedReason 3) ∧
    (grtol_gatol_conv 1 1 (PyFloat.val 1) (PyFloat.val 0) =
        Except.ok ConvTestOutcome.ret0 ∨
      grtol_gatol_conv 1 1 (PyFloat.val 1) (PyFloat.val 0) =
        Except.ok (ConvTestOutcome.setConvergedReason 4)) ∧
    (∀ g : PyFloat, grtol_gatol_conv 1 1 (PyFloat.val 0) g =
      Except.error "ZeroDivisionError: float division by zero") :=
  grtol_gatol_conv_reason3_unreachable_for_ordinary_floats 1 1 1 0 (by norm_num)

/-- The column minimum is a lower bound of the column. -/
theorem colMin_le_of_mem : ∀ {l : List ℚ} {x : ℚ}, x ∈ l → colMin l ≤ x
  | [a], x, hx => by
      simp only [List.mem_singleton] at hx
      simp [colMin, hx]
  | a :: b :: l, x, hx => by
      simp only [List.mem_cons] at hx
      rcases hx with rfl | hx
      · simp [colMin]
      · calc colMin (a :: b :: l) ≤ colMin (b :: l) := by simp [colMin]
          _ ≤ x := colMin_le_of_mem (by simpa using hx)

/-- The column maximum is an upper bound of the column. -/
theorem le_colMax_of_mem : ∀ {l : List ℚ} {x : ℚ}, x ∈ l → x ≤ colMax l
  | [a], x, hx => by
      simp only [List.mem_singleton] at hx
      simp [colMax, hx]
  | a :: b :: l, x, hx => by
      simp only [List.mem_cons] at hx
      rcases hx with rfl | hx
      · simp [colMax]
      · calc x ≤ colMax (b :: l) := le_colMax_of_mem (by simpa using hx)
          _ ≤ colMax (a :: b :: l) := by simp [colMax]

/-- C9 evaluated at the failing input (code bug): for the all-equal value
column `[5, 5]` with the default padding `0.1`, the margin `white_space`
that `_calculate_x_bounds` adds on each side is exactly `10⁻⁵¹` in exact
arithmetic — smaller than `2⁻⁵³`, hence far below half an ulp of 5.0 in
binary64 (ulp 5.0 = 2⁻⁵⁰).  The program therefore computes
`5.0 - 1e-51 == 5.0` and `5.0 + 1e-51 == 5.0`: the clip at `1e-50` fails to
keep the grid non-degenerate for values of ordinary magnitude, and `pd.cut`
raises on the resulting bins. -/
theorem calculate_x_bounds_margin_at_failing_input :
    calculate_x_bounds [5, 5] (1 / 10) = (5 - 1 / 10 ^ 51, 5 + 1 / 10 ^ 51) ∧
    (1 : ℚ) / 10 ^ 51 < 1 / 2 ^ 53 := by
  constructor
  · have hmin : colMin [5, 5] = 5 := by
      show min (5 : ℚ) (colMin [5]) = 5
      show min (5 : ℚ) 5 = 5
      exact min_self 5
    have hmax : colMax [5, 5] = 5 := by
      show max (5 : ℚ) (colMax [5]) = 5
      show max (5 : ℚ) 5 = 5
      exact max_self 5
    show (colMin [5, 5] - max (colMax [5, 5] - colMin [5, 5]) ((1 : ℚ) / 10 ^ 50) * (1 / 10),
        colMax [5, 5] + max (colMax [5, 5] - colMin [5, 5]) ((1 : ℚ) / 10 ^ 50) * (1 / 10)) = _
    rw [hmin, hmax]
    have h55 : (5 : ℚ) - 5 = 0 := by norm_num
    rw [h55, max_eq_right (by norm_num : (0 : ℚ) ≤ 1 / 10 ^ 50)]
    norm_num
  · norm_num

/-! ## Structure lemmas about the assembled histogram frame -/

/-- The output frame has one row per retained input row, in order, each
keeping the original cells (subgroup through `subF`). -/
theorem build_hist_rows_map_orig (binF : Row → Option ℚ × ℚ)
    (subF : Row → Option (Int ⊕ String)) (colorF : Row → String) :
    ∀ (prior l : List Row),
      (build_hist_rows binF subF colorF prior l).map
          (fun h => (h.groups, h.subgroup, h.value, h.id, h.extra)) =
        l.map (fun r => (r.groups, subF r, r.value, r.id, r.extra))
  | _, [] => rfl
  | prior, r :: rest => by
      simp only [build_hist_rows, List.map_cons, mkHistRow]
      rw [build_hist_rows_map_orig binF subF colorF (prior ++ [r]) rest]

/-- Projection of the output frame to the group cells and the value cell. -/
theorem build_hist_rows_map_key (binF : Row → Option ℚ × ℚ)
    (subF : Row → Option (Int ⊕ String)) (colorF : Row → String) :
    ∀ (prior l : List Row),
      (build_hist_rows binF subF colorF prior l).map
          (fun h => (h.groups, h.value.getD 0)) =
        l.map (fun r => (r.groups, rowVal r))
  | _, [] => rfl
  | prior, r :: rest => by
      simp only [build_hist_rows, List.map_cons, mkHistRow]
      rw [build_hist_rows_map_key binF subF colorF (prior ++ [r]) rest]
      rfl

/-- Every output row comes from a retained input row, whose cells determine
all its columns except `dodge`. -/
theorem mem_build_hist_rows {binF : Row → Option ℚ × ℚ}
    {subF : Row → Option (Int ⊕ String)} {colorF : Row → String} :
    ∀ {prior l : List Row} {h : HRow}, h ∈ build_hist_rows binF subF colorF prior l →
      ∃ r ∈ l, h.groups = r.groups ∧ h.subgroup = subF r ∧ h.value = r.value ∧
        h.binned_x = (binF r).1 ∧ h.rect_width = (binF r).2 ∧ h.color = colorF r
  | prior, r :: rest, h, hmem => by
      rcases List.mem_cons.mp hmem with heq | htail
      · subst heq
        exact ⟨r, List.mem_cons_self r rest, rfl, rfl, rfl, rfl, rfl, rfl⟩
      · obtain ⟨r2, hr2, hprops⟩ := mem_build_hist_rows htail
        exact ⟨r2, List.mem_cons_of_mem r hr2, hprops⟩

/-- Filtering and projecting through a common view commutes with the
row-by-row correspondence of two lists. -/
theorem filter_map_congr {α β γ δ : Type} (F : α → γ) (G : β → γ) (p : γ → Bool) (s : γ → δ) :
    ∀ (l1 : List α) (l2 : List β), l1.map F = l2.map G →
      (l1.filter (fun a => p (F a))).map (fun a => s (F a)) =
        (l2.filter (fun b => p (G b))).map (fun b => s (G b))
  | [], [], _ => rfl
  | [], b :: l2, h => by simp at h
  | a :: l1, [], h => by simp at h
  | a :: l1, b :: l2, h => by
      simp only [List.map_cons, List.cons.injEq] at h
      obtain ⟨h1, h2⟩ := h
      have ih := filter_map_congr F G p s l1 l2 h2
      simp only [List.filter_cons, h1]
      cases hp : p (G b)
      · simpa using ih
      · simpa [h1] using ih

/-- The dodge column restricted to one cell — the rows with given group cells
and given (non-missing) `binned_x` — reads `0.5 + start`, `0.5 + start + 1`,
…, where `start` counts the cell's rows among the rows already processed. -/
theorem build_hist_rows_cell_dodges (binF : Row → Option ℚ × ℚ)
    (subF : Row → Option (Int ⊕ String)) (colorF : Row → String)
    (g : List (Option Int)) (b : ℚ) :
    ∀ (l prior : List Row),
      ((build_hist_rows binF subF colorF prior l).filter
          (fun h => decide (h.groups = g ∧ h.binned_x = some b))).map (fun h => h.dodge) =
        (List.range' ((prior.filter (fun s =>
            decide (s.groups = g ∧ (binF s).1 = some b))).length)
          ((l.filter (fun s => decide (s.groups = g ∧ (binF s).1 = some b))).length)).map
          (fun c : ℕ => some ((1 : ℚ) / 2 + (c : ℚ)))
  | [], prior => by simp [build_hist_rows]
  | r :: rest, prior => by
      have ih := build_hist_rows_cell_dodges binF subF colorF g b rest (prior ++ [r])
      have hbuild : build_hist_rows binF subF colorF prior (r :: rest) =
          mkHistRow binF subF colorF prior r ::
            build_hist_rows binF subF colorF (prior ++ [r]) rest := rfl
      by_cases hr : r.groups = g ∧ (binF r).1 = some b
      · have hcond : (fun h => decide (h.groups = g ∧ h.binned_x = some b))
              (mkHistRow binF subF colorF prior r) = true := by
          show decide (r.groups = g ∧ (binF r).1 = some b) = true
          exact decide_eq_true hr
        have hcondr : (fun s => decide (s.groups = g ∧ (binF s).1 = some b)) r = true :=
          decide_eq_true hr
        have hfilter_pr : (prior ++ [r]).filter (fun s =>
              decide (s.groups = g ∧ (binF s).1 = some b)) =
            prior.filter (fun s => decide (s.groups = g ∧ (binF s).1 = some b)) ++ [r] := by
          rw [List.filter_append]
          simp [hr]
        rw [hfilter_pr] at ih
        simp only [List.length_append, List.length_singleton] at ih
        have hdodge : (mkHistRow binF subF colorF prior r).dodge =
            some ((1 : ℚ) / 2 + ((prior.filter (fun s =>
              decide (s.groups = g ∧ (binF s).1 = some b))).length : ℚ)) := by
          simp only [mkHistRow, hr.1, hr.2]
        rw [hbuild,
          @List.filter_cons_of_pos _ (fun h => decide (h.groups = g ∧ h.binned_x = some b))
            (mkHistRow binF subF colorF prior r) _ hcond,
          List.map_cons, hdodge, ih,
          @List.filter_cons_of_pos _ (fun s => decide (s.groups = g ∧ (binF s).1 = some b))
            r _ hcondr,
          List.length_cons, List.range'_succ, List.map_cons]
      · have hcond : ¬ ((fun h => decide (h.groups = g ∧ h.binned_x = some b))
              (mkHistRow binF subF colorF prior r) = true) := by
          show ¬ (decide (r.groups = g ∧ (binF r).1 = some b) = true)
          simpa using hr
        have hcondr : ¬ ((fun s => decide (s.groups = g ∧ (binF s).1 = some b)) r = true) := by
          simpa using hr
        have hfilter_pr : (prior ++ [r]).filter (fun s =>
              decide (s.groups = g ∧ (binF s).1 = some b)) =
            prior.filter (fun s => decide (s.groups = g ∧ (binF s).1 = some b)) := by
          rw [List.filter_append]
          simp [hr]
        rw [hfilter_pr] at ih
        rw [hbuild,
          @List.filter_cons_of_neg _ (fun h => decide (h.groups = g ∧ h.binned_x = some b))
            (mkHistRow binF subF colorF prior r) _ hcond,
          ih,
          @List.filter_cons_of_neg _ (fun s => decide (s.groups = g ∧ (binF s).1 = some b))
            r _ hcondr]

/-- C2: in the output of `add_histogram_columns_to_tidy_df` (already sorted
by the group columns, the subgroup column if any, the value column and the id
column), the dodge values of every cell of rows sharing the same group cells
and the same `binned_x` are, in row order, exactly `0.5, 1.5, …, k − 0.5`
for a cell of `k` rows — equivalently, each row's dodge is 0.5 plus its
0-based position within its cell. -/
theorem histogram_dodge_positions (subgroup_col : Bool) (group_cols_len num_bins : ℕ)
    (x_padding : ℚ) (df : List Row) (g : List (Option Int)) (b : ℚ) :
    ((add_histogram_columns_to_tidy_df subgroup_col group_cols_len num_bins x_padding df).filter
        (fun h => decide (h.groups = g ∧ h.binned_x = some b))).map (fun h => h.dodge) =
      (List.range (((add_histogram_columns_to_tidy_df subgroup_col group_cols_len num_bins
          x_padding df).filter
          (fun h => decide (h.groups = g ∧ h.binned_x = some b))).length)).map
        (fun c : ℕ => some ((1 : ℚ) / 2 + (c : ℚ))) := by
  have key := build_hist_rows_cell_dodges
    (bin_width_and_midpoints group_cols_len (hist_data_of subgroup_col df) num_bins x_padding)
    (fun r => if subgroup_col then
        some (Sum.inr (clean_subgroup_val (subgroup_col_values (hist_data_of subgroup_col df))
          (r.subgroup.getD 0)))
      else r.subgroup.map Sum.inl)
    (fun r => if subgroup_col then
        create_color_val (clean_subgroup_col (subgroup_col_values (hist_data_of subgroup_col df)))
          (clean_subgroup_val (subgroup_col_values (hist_data_of subgroup_col df))
            (r.subgroup.getD 0))
      else "#035096")
    g b (hist_data_of subgroup_col df) []
  have hout : add_histogram_columns_to_tidy_df subgroup_col group_cols_len num_bins x_padding df =
      build_hist_rows
        (bin_width_and_midpoints group_cols_len (hist_data_of subgroup_col df) num_bins x_padding)
        (fun r => if subgroup_col then
            some (Sum.inr (clean_subgroup_val (subgroup_col_values (hist_data_of subgroup_col df))
              (r.subgroup.getD 0)))
          else r.subgroup.map Sum.inl)
        (fun r => if subgroup_col then
            create_color_val
              (clean_subgroup_col (subgroup_col_values (hist_data_of subgroup_col df)))
              (clean_subgroup_val (subgroup_col_values (hist_data_of subgroup_col df))
                (r.subgroup.getD 0))
          else "#035096")
        [] (hist_data_of subgroup_col df) := rfl
  rw [hout]
  simp only [List.filter_nil, List.length_nil] at key
  have hlen := congrArg List.length key
  simp only [List.length_map, List.length_range'] at hlen
  rw [key, hlen, List.range_eq_range']

/-! ## The bin grid (C1) -/

/-- Projection of the output frame to the value cells. -/
theorem build_hist_rows_map_val (binF : Row → Option ℚ × ℚ)
    (subF : Row → Option (Int ⊕ String)) (colorF : Row → String) :
    ∀ (prior l : List Row),
      (build_hist_rows binF subF colorF prior l).map (fun h => h.value.getD 0) =
        l.map rowVal
  | _, [] => rfl
  | prior, r :: rest => by
      simp only [build_hist_rows, List.map_cons, mkHistRow]
      rw [build_hist_rows_map_val binF subF colorF (prior ++ [r]) rest]
      rfl

/-- A value strictly inside an `n`-bin grid of width `w` lies in one of the
right-closed bins. -/
theorem exists_bin {w : ℚ} (hw : 0 < w) :
    ∀ (n : ℕ) (a v : ℚ), a < v → v ≤ a + (n : ℚ) * w →
      ∃ i : ℕ, i < n ∧ a + (i : ℚ) * w < v ∧ v ≤ a + ((i : ℚ) + 1) * w
  | 0, a, v, hav, hv => by
      simp only [Nat.cast_zero, zero_mul, add_zero] at hv
      exact absurd hv (not_le.mpr hav)
  | n + 1, a, v, hav, hv => by
      by_cases hc : a + (n : ℚ) * w < v
      · refine ⟨n, Nat.lt_succ_self n, hc, ?_⟩
        have hcast : ((n : ℚ) + 1) = ((n + 1 : ℕ) : ℚ) := by push_cast; ring
        rw [hcast]
        exact hv
      · obtain ⟨i, hi, h1, h2⟩ := exists_bin hw n a v hav (not_lt.mp hc)
        exact ⟨i, Nat.lt_succ_of_lt hi, h1, h2⟩

/-- When some bin's interval contains the value, `pd.cut` labels the value
with the midpoint of the bin it finds. -/
theorem cut_midpoint_covers {x_min w : ℚ} {num_bins : ℕ} {v : ℚ}
    (hex : ∃ i : ℕ, i < num_bins ∧ x_min + (i : ℚ) * w < v ∧ v ≤ x_min + ((i : ℚ) + 1) * w) :
    ∃ i : ℕ, i < num_bins ∧ x_min + (i : ℚ) * w < v ∧ v ≤ x_min + ((i : ℚ) + 1) * w ∧
      cut_midpoint x_min w num_bins v = some (x_min + (i : ℚ) * w + w / 2) := by
  obtain ⟨i, hi, h1, h2⟩ := hex
  have hsome : ((List.range num_bins).find? (fun j : ℕ =>
      decide (x_min + (j : ℚ) * w < v ∧ v ≤ x_min + ((j : ℚ) + 1) * w))).isSome := by
    rw [List.find?_isSome]
    exact ⟨i, List.mem_range.mpr hi, decide_eq_true ⟨h1, h2⟩⟩
  obtain ⟨j, hj⟩ := Option.isSome_iff_exists.mp hsome
  have hfind := List.find?_some hj
  have hPj : x_min + (j : ℚ) * w < v ∧ v ≤ x_min + ((j : ℚ) + 1) * w :=
    of_decide_eq_true hfind
  have hjlt : j < num_bins := List.mem_range.mp (List.mem_of_find?_eq_some hj)
  refine ⟨j, hjlt, hPj.1, hPj.2, ?_⟩
  simp only [cut_midpoint, hj, Option.map_some']

/-- The per-group binning satisfies the bin-grid specification for every row
of the group. -/
theorem per_group_bin_grid (grp : List Row) (num_bins : ℕ) (x_padding : ℚ) (r : Row)
    (hbins : 0 < num_bins) (hpad : 0 < x_padding) (hr : r ∈ grp) (h : HRow)
    (hval : h.value = r.value)
    (hbin : h.binned_x = (bin_width_and_midpoints_per_group grp num_bins x_padding r).1)
    (hrect : h.rect_width = (bin_width_and_midpoints_per_group grp num_bins x_padding r).2) :
    bin_grid_spec num_bins x_padding (grp.map rowVal) h := by
  set vals := grp.map rowVal with hvals
  set m := colMin vals with hm
  set M := colMax vals with hM
  set ws := max (M - m) ((1 : ℚ) / 10 ^ 50) * x_padding with hws_eq
  set w := ((M + ws) - (m - ws)) / (num_bins : ℚ) with hw_eq
  have hvm : rowVal r ∈ vals := List.mem_map_of_mem rowVal hr
  have hm_le : m ≤ rowVal r := colMin_le_of_mem hvm
  have hle_M : rowVal r ≤ M := le_colMax_of_mem hvm
  have hws : 0 < ws := by
    rw [hws_eq]
    exact mul_pos (lt_of_lt_of_le (by norm_num) (le_max_right _ _)) hpad
  have hnq : (0 : ℚ) < (num_bins : ℚ) := by exact_mod_cast hbins
  have hwpos : 0 < w := by
    rw [hw_eq]
    apply div_pos _ hnq
    have : m ≤ M := le_trans hm_le hle_M
    linarith
  have hspan : (m - ws) + (num_bins : ℚ) * w = M + ws := by
    rw [hw_eq]
    have hcancel : (num_bins : ℚ) * (((M + ws) - (m - ws)) / (num_bins : ℚ)) =
        (M + ws) - (m - ws) := by
      field_simp
    rw [hcancel]
    ring
  have hav : (m - ws) < rowVal r := lt_of_lt_of_le (sub_lt_self m hws) hm_le
  have hvb : rowVal r ≤ (m - ws) + (num_bins : ℚ) * w := by
    rw [hspan]
    linarith
  obtain ⟨i, hi, h1, h2⟩ := exists_bin hwpos num_bins (m - ws) (rowVal r) hav hvb
  obtain ⟨j, hjlt, hj1, hj2, hjeq⟩ := cut_midpoint_covers ⟨i, hi, h1, h2⟩
  have hv0 : h.value.getD 0 = rowVal r := by rw [hval]; rfl
  have hper : bin_width_and_midpoints_per_group grp num_bins x_padding r =
      (cut_midpoint (m - ws) w num_bins (rowVal r), w) := rfl
  refine ⟨m, M, ws, w, hm, hM, hws_eq, hw_eq, ?_, j, hjlt, ?_, ?_, ?_⟩
  · rw [hrect, hper]
  · rw [hv0]; exact hj1
  · rw [hv0]; exact hj2
  · rw [hbin, hper]
    exact hjeq

/-- C1: `add_histogram_columns_to_tidy_df` computes per-group bin grids.
With more than one group column, every output row's grid comes from the value
column of the rows agreeing with it on every group column except the last;
with zero or one group column, from the whole frame.  In both cases the grid
has `num_bins` equally spaced bins spanning `[min − p·r, max + p·r]` with
`r = max (max − min) 1e-50` and `p = x_padding`, the row's `binned_x` is the
midpoint of the bin containing its value and its `rect_width` is the common
bin width `(x_max − x_min)/num_bins`. -/
theorem histogram_bin_grid_correct (subgroup_col : Bool) (group_cols_len num_bins : ℕ)
    (x_padding : ℚ) (df : List Row) (h : HRow)
    (hbins : 0 < num_bins) (hpad : 0 < x_padding)
    (hmem : h ∈ add_histogram_columns_to_tidy_df subgroup_col group_cols_len num_bins
      x_padding df) :
    bin_grid_spec num_bins x_padding
      (out_values (outer_group_rows group_cols_len
        (add_histogram_columns_to_tidy_df subgroup_col group_cols_len num_bins x_padding df) h))
      h := by
  obtain ⟨r, hrmem, hg, hsub, hval, hbin, hrect, hcol⟩ := mem_build_hist_rows hmem
  by_cases hgc : 1 < group_cols_len
  · -- more than one group column: the grid of the outer group of r
    have hbinr : bin_width_and_midpoints group_cols_len (hist_data_of subgroup_col df)
        num_bins x_padding r =
        bin_width_and_midpoints_per_group
          ((hist_data_of subgroup_col df).filter
            (fun s => decide (s.groups.dropLast = r.groups.dropLast)))
          num_bins x_padding r := by
      simp only [bin_width_and_midpoints, if_pos hgc]
    have hvals : out_values (outer_group_rows group_cols_len
        (add_histogram_columns_to_tidy_df subgroup_col group_cols_len num_bins x_padding df) h) =
        ((hist_data_of subgroup_col df).filter
          (fun s => decide (s.groups.dropLast = r.groups.dropLast))).map rowVal := by
      simp only [outer_group_rows, if_pos hgc, out_values, hg]
      have hmap := build_hist_rows_map_key
        (bin_width_and_midpoints group_cols_len (hist_data_of subgroup_col df) num_bins x_padding)
        (fun r => if subgroup_col then
            some (Sum.inr (clean_subgroup_val (subgroup_col_values (hist_data_of subgroup_col df))
              (r.subgroup.getD 0)))
          else r.subgroup.map Sum.inl)
        (fun r => if subgroup_col then
            create_color_val
              (clean_subgroup_col (subgroup_col_values (hist_data_of subgroup_col df)))
              (clean_subgroup_val (subgroup_col_values (hist_data_of subgroup_col df))
                (r.subgroup.getD 0))
          else "#035096")
        [] (hist_data_of subgroup_col df)
      have hcongr := filter_map_congr
        (fun h2 : HRow => (h2.groups, h2.value.getD 0))
        (fun s : Row => (s.groups, rowVal s))
        (fun c : List (Option Int) × ℚ => decide (c.1.dropLast = r.groups.dropLast))
        (fun c : List (Option Int) × ℚ => c.2)
        (add_histogram_columns_to_tidy_df subgroup_col group_cols_len num_bins x_padding df)
        (hist_data_of subgroup_col df) hmap
      exact hcongr
    rw [hvals]
    refine per_group_bin_grid _ num_bins x_padding r hbins hpad ?_ h hval ?_ ?_
    · exact List.mem_filter.mpr ⟨hrmem, decide_eq_true rfl⟩
    · rw [hbin, hbinr]
    · rw [hrect, hbinr]
  · -- zero or one group column: the grid of the whole frame
    have hbinr : bin_width_and_midpoints group_cols_len (hist_data_of subgroup_col df)
        num_bins x_padding r =
        bin_width_and_midpoints_per_group (hist_data_of subgroup_col df)
          num_bins x_padding r := by
      simp only [bin_width_and_midpoints, if_neg hgc]
    have hvals : out_values (outer_group_rows group_cols_len
        (add_histogram_columns_to_tidy_df subgroup_col group_cols_len num_bins x_padding df) h) =
        (hist_data_of subgroup_col df).map rowVal := by
      simp only [outer_group_rows, if_neg hgc, out_values]
      exact build_hist_rows_map_val _ _ _ [] (hist_data_of subgroup_col df)
    rw [hvals]
    refine per_group_bin_grid _ num_bins x_padding r hbins hpad hrmem h hval ?_ ?_
    · rw [hbin, hbinr]
    · rw [hrect, hbinr]

/-! ## Color assignment (C5) -/

/-- `Series.unique()` keeps every element not yet seen. -/
theorem mem_uniqAux {α : Type} [DecidableEq α] :
    ∀ (l seen : List α) (x : α), x ∈ l → x ∉ seen → x ∈ uniqAux seen l
  | a :: l, seen, x, hx, hseen => by
      rcases List.mem_cons.mp hx with rfl | hxl
      · simp only [uniqAux, if_neg hseen]
        exact List.mem_cons_self x _
      · by_cases ha : a ∈ seen
        · simpa only [uniqAux, if_pos ha] using mem_uniqAux l seen x hxl hseen
        · simp only [uniqAux, if_neg ha]
          by_cases hxa : x = a
          · exact hxa ▸ List.mem_cons_self a _
          · exact List.mem_cons_of_mem a
              (mem_uniqAux l (a :: seen) x hxl (by simp [hxa, hseen]))

/-- Every value of a column appears among its distinct values. -/
theorem mem_uniqueValues {α : Type} [DecidableEq α] {l : List α} {x : α} (hx : x ∈ l) :
    x ∈ uniqueValues l :=
  mem_uniqAux l [] x hx (List.not_mem_nil x)

/-- The palette has exactly as many colors as requested. -/
theorem get_color_palette_length (n : ℕ) : (get_color_palette n).length = n := by
  simp [get_color_palette]

/-- Looking a present key up in the zipped color dictionary returns the
palette entry at the key's first-occurrence index. -/
theorem find_zip_eq_getD :
    ∀ (us ps : List String) (v : String), v ∈ us → us.length ≤ ps.length →
      ((((us.zip ps)).find? (fun p => decide (p.1 = v))).map Prod.snd).getD v =
        ps.getD (us.indexOf v) ""
  | [], _, v, hv, _ => absurd hv (List.not_mem_nil v)
  | u :: us, [], v, hv, hlen => by simp at hlen
  | u :: us, p :: ps, v, hv, hlen => by
      rw [List.zip_cons_cons]
      by_cases huv : u = v
      · rw [List.find?_cons_of_pos _ (by simpa using huv), List.indexOf_cons_eq us huv]
        rfl
      · rw [List.find?_cons_of_neg _ (by simpa using huv),
          List.indexOf_cons_ne us (by simpa using huv), List.getD_cons_succ]
        exact find_zip_eq_getD us ps v
          (by rcases List.mem_cons.mp hv with rfl | h; exact absurd rfl huv; exact h)
          (by simpa using hlen)

/-- For a value present in the column, `_create_color_col` pairs it with the
palette color standing at the index of its first appearance among the
distinct values. -/
theorem create_color_val_spec (sr : List String) {v : String} (hv : v ∈ sr) :
    create_color_val sr v =
      (get_color_palette (uniqueValues sr).length).getD ((uniqueValues sr).indexOf v) "" ∧
    (uniqueValues sr).getD ((uniqueValues sr).indexOf v) "" = v := by
  have hvu : v ∈ uniqueValues sr := mem_uniqueValues hv
  constructor
  · show ((((uniqueValues sr).zip (get_color_palette (uniqueValues sr).length)).find?
        (fun p => decide (p.1 = v))).map Prod.snd).getD v = _
    exact find_zip_eq_getD _ _ v hvu (by rw [get_color_palette_length])
  · have hlt : (uniqueValues sr).indexOf v < (uniqueValues sr).length :=
      List.indexOf_lt_length.mpr hvu
    have hget := List.indexOf_get hlt
    rw [List.get_eq_getElem] at hget
    rw [List.getD_eq_getElem _ _ hlt]
    exact hget

/-- C5: without a subgroup column every output row is colored `#035096`;
with one, rows with equal cleaned subgroup values share their color, and each
row's color is the entry of a palette of exactly as many colors as there are
distinct cleaned values, paired with the row's value by its position in the
order of first appearance. -/
theorem histogram_color_assignment (subgroup_col : Bool) (group_cols_len num_bins : ℕ)
    (x_padding : ℚ) (df : List Row) (h h2 : HRow)
    (hmem : h ∈ add_histogram_columns_to_tidy_df subgroup_col group_cols_len num_bins
      x_padding df)
    (hmem2 : h2 ∈ add_histogram_columns_to_tidy_df subgroup_col group_cols_len num_bins
      x_padding df) :
    (subgroup_col = false → h.color = "#035096") ∧
    (get_color_palette (uniqueValues (cleaned_subgroup_column subgroup_col df)).length).length =
      (uniqueValues (cleaned_subgroup_column subgroup_col df)).length ∧
    (subgroup_col = true →
      (h.subgroup = h2.subgroup → h.color = h2.color) ∧
      ∃ v : String, h.subgroup = some (Sum.inr v) ∧
        (uniqueValues (cleaned_subgroup_column subgroup_col df)).getD
          ((uniqueValues (cleaned_subgroup_column subgroup_col df)).indexOf v) "" = v ∧
        h.color = (get_color_palette
            (uniqueValues (cleaned_subgroup_column subgroup_col df)).length).getD
          ((uniqueValues (cleaned_subgroup_column subgroup_col df)).indexOf v) "") := by
  obtain ⟨r, hrmem, hg, hsub, hval, hbin, hrect, hcol⟩ := mem_build_hist_rows hmem
  obtain ⟨r2, hrmem2, hg2, hsub2, hval2, hbin2, hrect2, hcol2⟩ := mem_build_hist_rows hmem2
  refine ⟨?_, get_color_palette_length _, ?_⟩
  · intro hs
    subst hs
    simpa using hcol
  · intro hs
    subst hs
    have hvmem : clean_subgroup_val (subgroup_col_values (hist_data_of true df))
        (r.subgroup.getD 0) ∈ cleaned_subgroup_column true df := by
      show _ ∈ (subgroup_col_values (hist_data_of true df)).map
        (clean_subgroup_val (subgroup_col_values (hist_data_of true df)))
      exact List.mem_map_of_mem _ (List.mem_map_of_mem _ hrmem)
    constructor
    · intro hsg
      have hv12 : clean_subgroup_val (subgroup_col_values (hist_data_of true df))
          (r.subgroup.getD 0) =
          clean_subgroup_val (subgroup_col_values (hist_data_of true df))
            (r2.subgroup.getD 0) := by
        have := hsub.symm.trans (hsg.trans hsub2)
        simpa using this
      rw [hcol, hcol2]
      simp only [if_true]
      rw [hv12]
    · refine ⟨clean_subgroup_val (subgroup_col_values (hist_data_of true df))
        (r.subgroup.getD 0), by simpa using hsub, ?_, ?_⟩
      · exact (create_color_val_spec (cleaned_subgroup_column true df) hvmem).2
      · rw [hcol]
        simp only [if_true]
        exact (create_color_val_spec (cleaned_subgroup_column true df) hvmem).1

/-! ## Group-switch titles (C6) -/

/-- `filterMap` with a function that always hits is a `map`. -/
theorem filterMap_some_eq_map {α β : Type} (f : α → β) :
    ∀ l : List α, l.filterMap (fun a => some (f a)) = l.map f
  | [] => rfl
  | a :: l => by
      rw [List.filterMap_cons, List.map_cons, filterMap_some_eq_map f l]

/-- `getD` version of list extensionality. -/
theorem list_eq_iff_getD {α : Type} (d : α) :
    ∀ (l1 l2 : List α), l1.length = l2.length →
      (l1 = l2 ↔ ∀ i, i < l1.length → l1.getD i d = l2.getD i d)
  | [], [], _ => by simp
  | [], b :: l2, h => by simp at h
  | a :: l1, [], h => by simp at h
  | a :: l1, b :: l2, h => by
      constructor
      · intro he i hi
        rw [he]
      · intro hall
        have h0 := hall 0 (Nat.succ_pos _)
        simp only [List.getD_cons_zero] at h0
        subst h0
        have htail := (list_eq_iff_getD d l1 l2 (by simpa using h)).mpr ?_
        · rw [htail]
        · intro i hi
          have := hall (i + 1) (by simpa using Nat.succ_lt_succ hi)
          simpa using this

/-- Reading `dropLast` below the last position reads the original list. -/
theorem getD_dropLast {α : Type} (d : α) :
    ∀ (l : List α) (i : ℕ), i < l.length - 1 → l.dropLast.getD i d = l.getD i d
  | [], i, hi => by simp at hi
  | [a], i, hi => by simp at hi
  | a :: b :: l, 0, _ => rfl
  | a :: b :: l, i + 1, hi => by
      show (a :: (b :: l).dropLast).getD (i + 1) d = (a :: b :: l).getD (i + 1) d
      rw [List.getD_cons_succ, List.getD_cons_succ]
      refine getD_dropLast d (b :: l) i ?_
      simp only [List.length_cons] at hi ⊢
      omega

/-- One group switch: the source functions append exactly the
specification-side titles and update the previous key exactly when a switch
happened. -/
theorem check_and_handle_group_switch_eq (group_cols : List String)
    (old_group_tup : Option (List Int)) (group_tup : List Int) (plots : List PlotItem) :
    (check_and_handle_group_switch group_cols old_group_tup group_tup plots).1 =
      plots ++ group_switch_titles_spec group_cols old_group_tup group_tup ∧
    (check_and_handle_group_switch group_cols old_group_tup group_tup plots).2.2 =
      (if group_cols.length < 2 then old_group_tup
       else if (match old_group_tup with
          | none => true
          | some o => decide (o.dropLast ≠ group_tup.dropLast)) then some group_tup
       else old_group_tup) := by
  by_cases hlen : group_cols.length < 2
  · have hcheck : check_and_handle_group_switch group_cols old_group_tup group_tup plots =
        (plots, false, old_group_tup) := by
      rw [check_and_handle_group_switch.eq_def, if_pos hlen]
    have hspec : group_switch_titles_spec group_cols old_group_tup group_tup = [] := by
      cases old_group_tup with
      | none => rw [group_switch_titles_spec, if_pos hlen]
      | some o => rw [group_switch_titles_spec, if_pos hlen]
    rw [hcheck, hspec, List.append_nil, if_pos hlen]
    exact ⟨rfl, rfl⟩
  · cases old_group_tup with
    | none =>
        have hstep : check_and_handle_group_switch group_cols none group_tup plots =
            (write_titles plots group_cols none group_tup, true, some group_tup) := by
          rw [check_and_handle_group_switch, if_neg hlen]
          rfl
        have hspec : group_switch_titles_spec group_cols none group_tup =
            (List.range (group_cols.length - 1)).map (fun level =>
              PlotItem.titleFig (group_cols.getD level "")
                (toString (group_tup.getD level 0)) level) := by
          rw [group_switch_titles_spec, if_neg hlen]
        constructor
        · rw [hstep, hspec]
          show write_titles plots group_cols none group_tup = _
          rw [write_titles]
          congr 1
          exact filterMap_some_eq_map _ _
        · rw [hstep]
          rw [if_neg hlen]
          rfl
    | some o =>
        by_cases hd : o.dropLast = group_tup.dropLast
        · have hng : decide (o.dropLast ≠ group_tup.dropLast) = false :=
            decide_eq_false (fun hcon => hcon hd)
          have hstep : check_and_handle_group_switch group_cols (some o) group_tup plots =
              (plots, false, some o) := by
            rw [check_and_handle_group_switch, if_neg hlen, hng]
            rfl
          have hspec : group_switch_titles_spec group_cols (some o) group_tup = [] := by
            rw [group_switch_titles_spec, if_neg hlen, if_pos hd]
          constructor
          · rw [hstep, hspec, List.append_nil]
          · rw [hstep, if_neg hlen]
            show (plots, false, some o).2.2 =
              if (decide (o.dropLast ≠ group_tup.dropLast)) = true then some group_tup
              else some o
            rw [hng]
            rfl
        · have hng : decide (o.dropLast ≠ group_tup.dropLast) = true := decide_eq_true hd
          have hstep : check_and_handle_group_switch group_cols (some o) group_tup plots =
              (write_titles plots group_cols (some o) group_tup, true, some group_tup) := by
            rw [check_and_handle_group_switch, if_neg hlen, hng]
            rfl
          have hspec : group_switch_titles_spec group_cols (some o) group_tup =
              (List.range (group_cols.length - 1)).filterMap (fun level =>
                if decide (o.getD level 0 ≠ group_tup.getD level 0) then
                  some (PlotItem.titleFig (group_cols.getD level "")
                    (toString (group_tup.getD level 0)) level)
                else none) := by
            rw [group_switch_titles_spec, if_neg hlen, if_neg hd]
          constructor
          · rw [hstep, hspec]
            show write_titles plots group_cols (some o) group_tup = _
            rw [write_titles]
          · rw [hstep, if_neg hlen]
            show (write_titles plots group_cols (some o) group_tup, true, some group_tup).2.2 =
              if (decide (o.dropLast ≠ group_tup.dropLast)) = true then some group_tup
              else some o
            rw [hng]
            rfl

/-- The assembly loop equals its specification-side description. -/
theorem create_plots_loop_eq (group_cols : List String) :
    ∀ (ks : List (List Int)) (plots : List PlotItem) (old_group_tup : Option (List Int)),
      create_plots_loop group_cols plots old_group_tup ks =
        plots ++ create_plots_spec group_cols old_group_tup ks
  | [], plots, old => by
      show plots = plots ++ ([] : List PlotItem)
      rw [List.append_nil]
  | k :: ks, plots, old => by
      obtain ⟨h1, h2⟩ := check_and_handle_group_switch_eq group_cols old k plots
      show create_plots_loop group_cols
          ((check_and_handle_group_switch group_cols old k plots).1 ++ [PlotItem.paramPlot k])
          (check_and_handle_group_switch group_cols old k plots).2.2 ks = _
      rw [create_plots_loop_eq group_cols ks _ _, h1, h2]
      show _ = plots ++ (group_switch_titles_spec group_cols old k ++ [PlotItem.paramPlot k] ++
        create_plots_spec group_cols _ ks)
      simp only [List.append_assoc]

/-- C6: with at least two group columns, `_create_plots` iterates the groups
in sorted key order and, before a group's plot, inserts title figures exactly
when the group's key differs from the previous one in some component other
than the last — one per level whose component changed; with fewer than two
group columns no group-switch title is ever inserted. -/
theorem create_plots_group_switch_titles (group_cols : List String) :
    (∀ (plots : List PlotItem) (old_group_tup : Option (List Int)) (ks : List (List Int)),
      create_plots_loop group_cols plots old_group_tup ks =
        plots ++ create_plots_spec group_cols old_group_tup ks) ∧
    (group_cols.length < 2 →
      (∀ old_group_tup group_tup,
        group_switch_titles_spec group_cols old_group_tup group_tup = []) ∧
      (∀ old_group_tup ks, create_plots_spec group_cols old_group_tup ks =
        ks.map PlotItem.paramPlot)) ∧
    (2 ≤ group_cols.length → ∀ keys, create_plots group_cols keys =
      PlotItem.widget :: create_plots_spec group_cols none (groupby_keys keys)) ∧
    (∀ (o group_tup : List Int), 2 ≤ group_cols.length →
      o.length = group_cols.length → group_tup.length = group_cols.length →
      (group_switch_titles_spec group_cols (some o) group_tup =
        (List.range (group_cols.length - 1)).filterMap (fun level =>
          if decide (o.getD level 0 ≠ group_tup.getD level 0) then
            some (PlotItem.titleFig (group_cols.getD level "")
              (toString (group_tup.getD level 0)) level)
          else none)) ∧
      (group_switch_titles_spec group_cols (some o) group_tup = [] ↔
        o.dropLast = group_tup.dropLast) ∧
      (o.dropLast ≠ group_tup.dropLast ↔
        ∃ level, level < group_cols.length - 1 ∧ o.getD level 0 ≠ group_tup.getD level 0)) := by
  have hdrop : ∀ (o t : List Int), o.length = group_cols.length →
      t.length = group_cols.length →
      (o.dropLast = t.dropLast ↔
        ∀ level, level < group_cols.length - 1 → o.getD level 0 = t.getD level 0) := by
    intro o t ho ht
    have hlo : o.dropLast.length = group_cols.length - 1 := by
      rw [List.length_dropLast, ho]
    have hlt2 : t.dropLast.length = group_cols.length - 1 := by
      rw [List.length_dropLast, ht]
    rw [list_eq_iff_getD (0 : Int) o.dropLast t.dropLast (by rw [hlo, hlt2])]
    constructor
    · intro hall level hlev
      have := hall level (by rw [hlo]; exact hlev)
      rwa [getD_dropLast (0 : Int) o level (by rw [ho]; exact hlev),
        getD_dropLast (0 : Int) t level (by rw [ht]; exact hlev)] at this
    · intro hall i hi
      rw [hlo] at hi
      rw [getD_dropLast (0 : Int) o i (by rw [ho]; exact hi),
        getD_dropLast (0 : Int) t i (by rw [ht]; exact hi)]
      exact hall i hi
  refine ⟨fun plots old ks => create_plots_loop_eq group_cols ks plots old, ?_, ?_, ?_⟩
  · intro hlen
    have htitles : ∀ old_group_tup group_tup,
        group_switch_titles_spec group_cols old_group_tup group_tup = [] := by
      intro old tup
      cases old with
      | none => rw [group_switch_titles_spec, if_pos hlen]
      | some o => rw [group_switch_titles_spec, if_pos hlen]
    refine ⟨htitles, ?_⟩
    intro old ks
    induction ks generalizing old with
    | nil => rfl
    | cons k ks ih =>
        show group_switch_titles_spec group_cols old k ++ [PlotItem.paramPlot k] ++
            create_plots_spec group_cols _ ks = (k :: ks).map PlotItem.paramPlot
        rw [htitles, ih, List.map_cons]
        rfl
  · intro hlen keys
    have h0 : ¬ group_cols.length = 0 := by omega
    have h1 : ¬ group_cols.length = 1 := by omega
    rw [create_plots, if_neg h0, if_neg h1,
      create_plots_loop_eq group_cols (groupby_keys keys) _ _]
    rfl
  · intro o tup hlen ho ht
    have hne : ¬ group_cols.length < 2 := by omega
    have hspec_some : group_switch_titles_spec group_cols (some o) tup =
        if o.dropLast = tup.dropLast then ([] : List PlotItem)
        else (List.range (group_cols.length - 1)).filterMap (fun level =>
          if decide (o.getD level 0 ≠ tup.getD level 0) then
            some (PlotItem.titleFig (group_cols.getD level "")
              (toString (tup.getD level 0)) level)
          else none) := by
      rw [group_switch_titles_spec, if_neg hne]
    refine ⟨?_, ?_, ?_⟩
    · by_cases hd : o.dropLast = tup.dropLast
      · rw [hspec_some, if_pos hd]
        symm
        rw [List.filterMap_eq_nil_iff]
        intro level hlev
        have heq := ((hdrop o tup ho ht).mp hd) level (List.mem_range.mp hlev)
        have hfalse : decide (o.getD level 0 ≠ tup.getD level 0) = false :=
          decide_eq_false (fun hcon => hcon heq)
        rw [hfalse]
        rfl
      · rw [hspec_some, if_neg hd]
    · constructor
      · intro hnil
        by_contra hd
        have hex : ∃ level, level < group_cols.length - 1 ∧
            o.getD level 0 ≠ tup.getD level 0 := by
          by_contra hnolevel
          push_neg at hnolevel
          exact hd ((hdrop o tup ho ht).mpr hnolevel)
        obtain ⟨level, hlev, hne2⟩ := hex
        have hmem2 : PlotItem.titleFig (group_cols.getD level "")
            (toString (tup.getD level 0)) level ∈
            group_switch_titles_spec group_cols (some o) tup := by
          rw [hspec_some, if_neg hd]
          refine List.mem_filterMap.mpr ⟨level, List.mem_range.mpr hlev, ?_⟩
          rw [if_pos (decide_eq_true hne2)]
        rw [hnil] at hmem2
        exact absurd hmem2 (List.not_mem_nil _)
      · intro hd
        rw [hspec_some, if_pos hd]
    · constructor
      · intro hd
        by_contra hnolevel
        push_neg at hnolevel
        exact hd ((hdrop o tup ho ht).mpr hnolevel)
      · intro hex hd
        obtain ⟨level, hlev, hne2⟩ := hex
        exact hne2 (((hdrop o tup ho ht).mp hd) level hlev)

/-! ## Frame effect (C7) -/

/-- C7 (amended): `add_histogram_columns_to_tidy_df` is a pure function of
its input frame, and the rows of its output are, up to the sorting, exactly
the input rows with no missing value in the group columns, the subgroup
column (if given), the value column and the id column — every original
column kept alongside the new ones, except that the cells of a designated
subgroup column are replaced by their cleaned (string- or float-cast)
values. -/
theorem histogram_frame_effect_amended (subgroup_col : Bool) (group_cols_len num_bins : ℕ)
    (x_padding : ℚ) (df : List Row) :
    List.Perm
      ((add_histogram_columns_to_tidy_df subgroup_col group_cols_len num_bins x_padding df).map
        (fun h => (h.groups, h.subgroup, h.value, h.id, h.extra)))
      ((df.filter (keep_row subgroup_col)).map (fun r => (r.groups,
        (if subgroup_col then
            some (Sum.inr (clean_subgroup_val (subgroup_col_values (hist_data_of subgroup_col df))
              (r.subgroup.getD 0)))
          else r.subgroup.map Sum.inl),
        r.value, r.id, r.extra))) := by
  have hperm : List.Perm (hist_data_of subgroup_col df) (df.filter (keep_row subgroup_col)) :=
    List.perm_insertionSort _ _
  have hmap : (add_histogram_columns_to_tidy_df subgroup_col group_cols_len num_bins
      x_padding df).map (fun h => (h.groups, h.subgroup, h.value, h.id, h.extra)) =
      (hist_data_of subgroup_col df).map (fun r => (r.groups,
        (if subgroup_col then
            some (Sum.inr (clean_subgroup_val (subgroup_col_values (hist_data_of subgroup_col df))
              (r.subgroup.getD 0)))
          else r.subgroup.map Sum.inl),
        r.value, r.id, r.extra)) :=
    build_hist_rows_map_orig _ _ _ [] _
  rw [hmap]
  exact hperm.map _

/-- C7 as stated fails: with a subgroup column holding the integer 5, the
returned row's subgroup cell is the string "5", so the returned rows are not
the retained input rows with columns added alongside. -/
theorem histogram_frame_effect_counterexample :
    (add_histogram_columns_to_tidy_df true 1 2 (1 / 10)
        [{ groups := [some 1], subgroup := some 5, value := some 3, id := some 7,
           extra := 0 }]).map
        (fun h => (h.groups, h.subgroup, h.value, h.id, h.extra)) ≠
      [([some 1], some (Sum.inl 5), some 3, some 7, 0)] := by
  decide

/-! ## Closed witnesses -/

/-- Reading a list below its length yields a member. -/
theorem list_getD_mem {α : Type} (l : List α) (i : ℕ) (d : α) (h : i < l.length) :
    l.getD i d ∈ l := by
  rw [List.getD_eq_getElem _ _ h]
  exact List.getElem_mem h

/-- The output frame has one row per retained input row. -/
theorem add_histogram_columns_length (subgroup_col : Bool) (group_cols_len num_bins : ℕ)
    (x_padding : ℚ) (df : List Row) :
    (add_histogram_columns_to_tidy_df subgroup_col group_cols_len num_bins x_padding df).length =
      (df.filter (keep_row subgroup_col)).length := by
  have h1 := congrArg List.length (build_hist_rows_map_orig
    (bin_width_and_midpoints group_cols_len (hist_data_of subgroup_col df) num_bins x_padding)
    (fun r => if subgroup_col then
        some (Sum.inr (clean_subgroup_val (subgroup_col_values (hist_data_of subgroup_col df))
          (r.subgroup.getD 0)))
      else r.subgroup.map Sum.inl)
    (fun r => if subgroup_col then
        create_color_val (clean_subgroup_col (subgroup_col_values (hist_data_of subgroup_col df)))
          (clean_subgroup_val (subgroup_col_values (hist_data_of subgroup_col df))
            (r.subgroup.getD 0))
      else "#035096")
    [] (hist_data_of subgroup_col df))
  simp only [List.length_map] at h1
  have h2 : (hist_data_of subgroup_col df).length =
      (df.filter (keep_row subgroup_col)).length :=
    (List.perm_insertionSort _ _).length_eq
  exact h1.trans h2

/-- Closed witness for C1 at the first output row of a concrete two-row
frame with two group columns. -/
theorem histogram_bin_grid_correct_witness :
    bin_grid_spec 2 (1 / 10)
      (out_values (outer_group_rows 2
        (add_histogram_columns_to_tidy_df false 2 2 (1 / 10) bin_grid_example_df)
        bin_grid_example_row))
      bin_grid_example_row :=
  histogram_bin_grid_correct false 2 2 (1 / 10) bin_grid_example_df bin_grid_example_row
    (by norm_num) (by norm_num)
    (list_getD_mem _ 0 _
      (by rw [add_histogram_columns_length]; decide))

/-- Closed witness for C5 at the two output rows of a concrete frame whose
rows share one subgroup value. -/
theorem histogram_color_assignment_witness :
    (true = false → color_example_row_a.color = "#035096") ∧
    (get_color_palette (uniqueValues (cleaned_subgroup_column true color_example_df)).length).length =
      (uniqueValues (cleaned_subgroup_column true color_example_df)).length ∧
    (true = true →
      (color_example_row_a.subgroup = color_example_row_b.subgroup →
        color_example_row_a.color = color_example_row_b.color) ∧
      ∃ v : String, color_example_row_a.subgroup = some (Sum.inr v) ∧
        (uniqueValues (cleaned_subgroup_column true color_example_df)).getD
          ((uniqueValues (cleaned_subgroup_column true color_example_df)).indexOf v) "" = v ∧
        color_example_row_a.color = (get_color_palette
            (uniqueValues (cleaned_subgroup_column true color_example_df)).length).getD
          ((uniqueValues (cleaned_subgroup_column true color_example_df)).indexOf v) "") :=
  histogram_color_assignment true 1 2 (1 / 10) color_example_df
    color_example_row_a color_example_row_b
    (list_getD_mem _ 0 _ (by rw [add_histogram_columns_length]; decide))
    (list_getD_mem _ 1 _ (by rw [add_histogram_columns_length]; decide))

end Estimagic
